import Mathlib

/-!
Shallow embedding of the upload-tracking-and-retry core of the
`sysml_v2_agent_dev` repository:

* `utils/validators.py`: `validate_pdf_file`, `validate_directory`
* `src/file_manager.py`: `_load_tracking`, `_compute_file_hash`,
  `_is_file_tracked`, `upload_file`, `upload_directory`
* `src/rag_handler.py`: `ask_with_retry`

The file system is modelled as a partial map from path strings to nodes
(regular files with byte content and a readability flag, or directories
with their immediate entry names and a readability flag), together with a
path-resolution function.  The SHA-256 digest is abstracted as an
arbitrary function from content to string, passed as a parameter.  The
remote Gemini service is modelled by an environment recording the result
of each remote call (`Except` for calls that may raise).  Python
exceptions are modelled with `Except` / a `PyOutcome` type that also has
a `diverge` case for the unbounded processing-wait loop.
-/

namespace SysmlAgent

/-- File content as a list of bytes. -/
abbrev Content := List Nat

/-- A node of the modelled file system.  `readable` on a file says whether
`open` succeeds (a file can exist, be a regular file and have a size while
being unreadable); on a directory it models `os.access(path, os.R_OK)`. -/
inductive FsNode where
  | file (content : Content) (readable : Bool)
  | dir (entries : List String) (readable : Bool)
deriving DecidableEq

/-- The file system: lookup by path plus `Path.resolve`. -/
structure Fs where
  lookup : String → Option FsNode
  resolve : String → String

/-- Split a character list at every `'/'` (used for `PurePath.name`). -/
def splitSlash : List Char → List (List Char)
  | [] => [[]]
  | c :: cs =>
    let r := splitSlash cs
    if c = '/' then [] :: r
    else
      match r with
      | [] => [[c]]
      | h :: t => (c :: h) :: t

/-- `PurePath.name`: the final path component. -/
def pathName (p : String) : String :=
  String.mk ((splitSlash p.toList).getLastD [])

/-- `PurePath.suffix`: from the last dot of the final component to its end,
empty when the name has no dot, starts with its only dot, or ends in a dot
(cpython: `i = name.rfind('.'); name[i:] if 0 < i < len(name) - 1 else ''`). -/
def pathSuffix (p : String) : String :=
  let cs := (pathName p).toList
  let r := cs.reverse.indexOf '.'
  if r < cs.length then
    let i := cs.length - 1 - r
    if 0 < i ∧ i < cs.length - 1 then String.mk (cs.drop i) else ""
  else ""

/-- `str.lower`, restricted as `Char.toLower` is to ASCII letters. -/
def strLower (s : String) : String :=
  String.mk (s.toList.map Char.toLower)

/-- Does `s` end with `suff` (case-sensitive)?  Used for `glob("*.pdf")`:
`*` matches any (possibly empty) name part, so the pattern matches exactly
the entry names ending in the four characters `.pdf`. -/
def strEndsWith (s suff : String) : Bool :=
  suff.toList.reverse.isPrefixOf s.toList.reverse

/-- `utils/validators.py`, `validate_pdf_file`: returns
`(is_valid, error_message)`, checking existence, regular-file-ness,
a case-insensitive `.pdf` extension and non-emptiness, in that order. -/
def validate_pdf_file (fs : Fs) (file_path : String) : Bool × Option String :=
  match fs.lookup file_path with
  | none => (false, some ("File does not exist: " ++ file_path))
  | some (FsNode.dir _ _) => (false, some ("Path is not a file: " ++ file_path))
  | some (FsNode.file content _) =>
    if strLower (pathSuffix file_path) ≠ ".pdf" then
      (false, some ("File is not a PDF: " ++ file_path))
    else if content.length = 0 then
      (false, some ("File is empty: " ++ file_path))
    else
      (true, none)

/-- `utils/validators.py`, `validate_directory`: existence, directory-ness,
readability, in that order. -/
def validate_directory (fs : Fs) (dir_path : String) : Bool × Option String :=
  match fs.lookup dir_path with
  | none => (false, some ("Directory does not exist: " ++ dir_path))
  | some (FsNode.file _ _) => (false, some ("Path is not a directory: " ++ dir_path))
  | some (FsNode.dir _ readable) =>
    if readable then (true, none)
    else (false, some ("Directory is not readable: " ++ dir_path))

/-- `open(path, "rb").read()`: succeeds only on a readable regular file;
the error string names the Python exception that would be raised. -/
def readFile (fs : Fs) (p : String) : Except String Content :=
  match fs.lookup p with
  | some (FsNode.file c true) => Except.ok c
  | some (FsNode.file _ false) => Except.error ("PermissionError: " ++ p)
  | some (FsNode.dir _ _) => Except.error ("IsADirectoryError: " ++ p)
  | none => Except.error ("FileNotFoundError: " ++ p)

/-- `FileManager._compute_file_hash`: streaming SHA-256 of the file's
content; the digest itself is abstracted as `hashFn`.  Raises whatever
`open` raises. -/
def compute_file_hash (hashFn : Content → String) (fs : Fs) (p : String) :
    Except String String :=
  (readFile fs p).map hashFn

/-- One entry of the tracking store (`file_tracking.json`).  `hash` is an
`Option` because the code reads it with `.get('hash')`. -/
structure TrackedFile where
  name : String
  uri : String
  hash : Option String
  upload_date : String
  original_path : String
  store_name : Option String
deriving DecidableEq

/-- The in-memory tracking store, a map from resolved path to entry. -/
abbrev TrackStore := List (String × TrackedFile)

def storeLookup (st : TrackStore) (k : String) : Option TrackedFile :=
  st.lookup k

/-- Python dict assignment `d[k] = v`. -/
def storeInsert (st : TrackStore) (k : String) (v : TrackedFile) : TrackStore :=
  (k, v) :: st.filter (fun kv => kv.1 ≠ k)

/-- What `open` + `json.load` do on the persisted tracking file's
content.  The `except` clause of `_load_tracking` catches exactly
`(json.JSONDecodeError, IOError)`, so those two failure classes are
`caught`; any other exception `json.load` can raise on malformed content
— e.g. `UnicodeDecodeError` (a `ValueError` that is not a
`JSONDecodeError`) on bytes invalid in the text encoding, or
`RecursionError` on deeply nested input — is `uncaught`. -/
inductive ParseOutcome where
  | ok (m : TrackStore)
  | caught (e : String)
  | uncaught (e : String)
deriving DecidableEq

/-- The persisted tracking file: `none` when the file does not exist,
otherwise the outcome of opening and JSON-parsing its content. -/
abbrev PersistedTracking := Option ParseOutcome

/-- `FileManager._load_tracking`: missing file yields the empty map; a
`json.JSONDecodeError` or `IOError` is caught, logged and yields the
empty map; any other exception from `json.load` propagates (the outer
`Except.error`). -/
def load_tracking (persisted : PersistedTracking) : Except String TrackStore :=
  match persisted with
  | some contents =>
    match contents with
    | ParseOutcome.ok m => Except.ok m
    | ParseOutcome.caught _ => Except.ok []
    | ParseOutcome.uncaught e => Except.error e
  | none => Except.ok []

/-- `FileManager._is_file_tracked`: computes the file's fresh hash (an
exception from `open` propagates), resolves the path, and answers true
iff the store has an entry for the resolved key whose stored hash equals
the fresh hash. -/
def is_file_tracked (hashFn : Content → String) (fs : Fs) (tracked : TrackStore)
    (file_path : String) : Except String Bool :=
  match compute_file_hash hashFn fs file_path with
  | Except.error e => Except.error e
  | Except.ok file_hash =>
    let file_key := fs.resolve file_path
    match storeLookup tracked file_key with
    | some tf => Except.ok (decide (tf.hash = some file_hash))
    | none => Except.ok false

/-! ### Concrete fixtures used by witnesses -/

/-- A concrete stand-in for the SHA-256 digest. -/
def hashDemo (c : Content) : String :=
  "h" ++ toString (c.foldl (fun a b => 10 * a + b + 1) 0)

/-- A small concrete file system: a directory `docs` with three valid
PDFs and one non-PDF file, plus an empty PDF, an unreadable PDF and a
PDF whose extension differs in case. -/
def fsA : Fs where
  lookup := fun p =>
    if p = "docs" then
      some (FsNode.dir ["a.pdf", "b.pdf", "c.pdf", "notes.txt"] true)
    else if p = "docs/a.pdf" then some (FsNode.file [1] true)
    else if p = "docs/b.pdf" then some (FsNode.file [2] true)
    else if p = "docs/c.pdf" then some (FsNode.file [3] true)
    else if p = "docs/notes.txt" then some (FsNode.file [4] true)
    else if p = "empty.pdf" then some (FsNode.file [] true)
    else if p = "locked.pdf" then some (FsNode.file [5, 6] false)
    else if p = "big.PDF" then some (FsNode.file [7] true)
    else none
  resolve := fun p => "/root/" ++ p

end SysmlAgent

deriving instance DecidableEq for Except

namespace SysmlAgent

/-! ### The retry wrapper (`RAGHandler.ask_with_retry`) -/

/-- Observable trace of one `ask_with_retry` run: how many times
`ask_question` was invoked, how many `time.sleep(retry_delay)` calls were
made, and the outcome.  `Except.error last` models
`raise RuntimeError(...) from last_exception`, with `last = none` when no
attempt ever ran. -/
structure RetryTrace where
  calls : Nat
  sleeps : Nat
  result : Except (Option String) String
deriving DecidableEq

/-- The `for attempt in range(max_retries)` loop, with `remaining` the
number of iterations left (`max_retries - attempt`).  On success the
answer is returned at once; on failure the loop sleeps and retries unless
this was the last attempt (`attempt < max_retries - 1` is exactly
`remaining - 1 ≠ 0`); when iterations are exhausted the wrapping error is
raised from the last failure. -/
def retryGo (ask : Nat → Except String String) : Nat → Nat → RetryTrace
  | _, 0 => ⟨0, 0, Except.error none⟩
  | attempt, remaining + 1 =>
    match ask attempt with
    | Except.ok answer => ⟨1, 0, Except.ok answer⟩
    | Except.error e =>
      if remaining = 0 then
        ⟨1, 0, Except.error (some e)⟩
      else
        let t := retryGo ask (attempt + 1) remaining
        ⟨t.calls + 1, t.sleeps + 1, t.result⟩

/-- `RAGHandler.ask_with_retry`: `max_retries` is an `Int` because Python
accepts a negative count, on which `range` is empty (`Int.toNat`). -/
def ask_with_retry (ask : Nat → Except String String) (max_retries : Int) :
    RetryTrace :=
  retryGo ask 0 max_retries.toNat

/-! ### The upload pipeline (`FileManager.upload_file` / `upload_directory`) -/

/-- The handle returned by `client.files.upload` / refreshed by
`client.files.get`.  `state` / `processing_state` are `none` when the
attribute is absent or `None` (the code probes both with `getattr`);
`uri` / `file_uri` likewise. -/
structure RemoteFile where
  name : String
  uri : Option String
  file_uri : Option String
  state : Option String
  processing_state : Option String
deriving DecidableEq

/-- The operation handle returned by `import_file` / `operations.get`.
Each field is `none` when the attribute is absent (`hasattr` false); for
`error`, `some` additionally means the attribute is truthy. -/
structure RemoteOp where
  done : Option Bool
  status : Option String
  error : Option String
deriving DecidableEq

/-- Behaviour of the remote service during one `upload_file` call:
the result of each remote call the code can make, `Except.error` when the
call raises. -/
structure RemoteEnv where
  uploadResult : Except String RemoteFile
  polls : List (Except String RemoteFile)
  importResult : Except String RemoteOp
  opsAvailable : Bool
  opRefresh : Nat → Except String RemoteOp

/-- Outcome of running a Python method: normal return, uncaught
exception, or divergence (an unbounded loop that never exits). -/
inductive PyOutcome (α : Type) where
  | ok (a : α)
  | exn (msg : String)
  | diverge
deriving DecidableEq

/-- `getattr(f, 'state', None)` falling back to `processing_state`. -/
def fileState (f : RemoteFile) : Option String :=
  f.state.orElse fun _ => f.processing_state

def isProcessingState (s : Option String) : Bool :=
  s == some "PROCESSING" || s == some "processing"

def isFailedFileState (s : Option String) : Bool :=
  s == some "FAILED" || s == some "failed"

/-- The `while file_state in ['PROCESSING', 'processing']` wait loop:
`polls` are the successive `client.files.get` replies; the second
component counts how many of them were consumed (remote calls made).
When the supply of replies runs out with the file still processing, the
real loop never exits: `diverge`. -/
def processWait : RemoteFile → List (Except String RemoteFile) →
    PyOutcome RemoteFile × Nat
  | f, polls =>
    if isProcessingState (fileState f) then
      match polls with
      | [] => (PyOutcome.diverge, 0)
      | Except.error e :: _ => (PyOutcome.exn e, 1)
      | Except.ok f2 :: rest =>
        let r := processWait f2 rest
        (r.1, r.2 + 1)
    else (PyOutcome.ok f, 0)

def doneStatuses : List String := ["DONE", "done", "SUCCESS", "success"]

def failedStatuses : List String := ["FAILED", "failed", "ERROR", "error"]

/-- What the top of one import-wait iteration does with the current
operation: break out of the loop, `return None` from `upload_file`, or
fall through to the sleep-and-refresh step.  Mirrors the
`if hasattr(operation, 'done') ... elif hasattr(operation, 'status') ...`
cascade (note: when `done` exists but is false, `status` is never
consulted). -/
inductive ImportCheck where
  | brk
  | fail
  | cont
deriving DecidableEq

def importCheck (op : RemoteOp) : ImportCheck :=
  match op.done with
  | some b => if b then ImportCheck.brk else ImportCheck.cont
  | none =>
    match op.status with
    | some s =>
      if s ∈ doneStatuses then ImportCheck.brk
      else if s ∈ failedStatuses then ImportCheck.fail
      else ImportCheck.cont
    | none => ImportCheck.cont

/-- Result of the import-wait loop: the operation value held after the
loop, whether the in-loop `return None` was taken, seconds slept, and the
number of `operations.get` calls made. -/
structure ImportLoopOut where
  op : RemoteOp
  earlyFail : Bool
  slept : Nat
  getCalls : Nat
deriving DecidableEq

/-- The `while wait_time < max_wait_time` import-wait loop.  `fuel` is
the number of iterations the guard still allows
(`(max_wait_time - wait_time) / 2`, initially 150 since
`max_wait_time = 300` and each iteration adds 2 to `wait_time`); `iter`
indexes `opRefresh`.  Each fall-through iteration sleeps 2 seconds, then
either refreshes the operation (a refresh exception breaks the loop) or,
when the operations API is unavailable, warns and breaks. -/
def importLoop (env : RemoteEnv) : RemoteOp → Nat → Nat → ImportLoopOut
  | op, _, 0 => ⟨op, false, 0, 0⟩
  | op, iter, fuel + 1 =>
    match importCheck op with
    | ImportCheck.brk => ⟨op, false, 0, 0⟩
    | ImportCheck.fail => ⟨op, true, 0, 0⟩
    | ImportCheck.cont =>
      if env.opsAvailable then
        match env.opRefresh iter with
        | Except.ok op2 =>
          let r := importLoop env op2 (iter + 1) fuel
          ⟨r.op, r.earlyFail, r.slept + 2, r.getCalls + 1⟩
        | Except.error _ => ⟨op, false, 2, 1⟩
      else ⟨op, false, 2, 0⟩

/-- The post-loop `if hasattr(operation, 'error') and operation.error ...
elif hasattr(operation, 'status')` failure checks. -/
def importFinalFails (op : RemoteOp) : Bool :=
  match op.error with
  | some _ => true
  | none =>
    match op.status with
    | some s => decide (s ∈ failedStatuses)
    | none => false

/-- The dict `upload_file` returns on success. -/
structure UploadSuccess where
  name : String
  uri : String
deriving DecidableEq

/-- Observable result of one `upload_file` call: its outcome (returned
value paired with the tracking store after the call), the number of
`client.files.upload` calls, the total number of remote calls of any
kind, and the seconds slept inside the import-wait loop. -/
structure UploadRun where
  outcome : PyOutcome (Option UploadSuccess × TrackStore)
  uploads : Nat
  remoteCalls : Nat
  importSlept : Nat
deriving DecidableEq

/-- Tail of the `try` block: recompute the hash (an `open` failure here is
caught by the outer `except`), build the tracking entry, store it under
the resolved key, persist, and return `{'name': ..., 'uri': ...}`.
`file_uri` is `getattr(f,'uri',None) or getattr(f,'file_uri',None) or
file_name`. -/
def finishTracking (hashFn : Content → String) (fs : Fs)
    (store_name : Option String) (now : String) (tracked : TrackStore)
    (file_path : String) (uploaded : RemoteFile) (remote slept : Nat) :
    UploadRun :=
  match compute_file_hash hashFn fs file_path with
  | Except.error _ => ⟨PyOutcome.ok (none, tracked), 1, remote, slept⟩
  | Except.ok file_hash =>
    let file_key := fs.resolve file_path
    let file_name := uploaded.name
    let file_uri := (uploaded.uri.orElse fun _ => uploaded.file_uri).getD uploaded.name
    let entry : TrackedFile :=
      ⟨file_name, file_uri, some file_hash, now, file_path, store_name⟩
    ⟨PyOutcome.ok (some ⟨file_name, file_uri⟩, storeInsert tracked file_key entry),
      1, remote, slept⟩

/-- The `try` block of `upload_file` (everything after the tracked-file
short circuit).  Any `Except.error` arising inside it is caught by the
outer `except Exception` and converted to a `None` return with the store
unchanged; the `import_file` call has its own inner `except` that merely
logs and falls through to tracking. -/
def uploadTryBody (hashFn : Content → String) (fs : Fs) (env : RemoteEnv)
    (store_name : Option String) (now : String) (tracked : TrackStore)
    (file_path : String) : UploadRun :=
  match env.uploadResult with
  | Except.error _ => ⟨PyOutcome.ok (none, tracked), 1, 1, 0⟩
  | Except.ok uploaded0 =>
    let pw := processWait uploaded0 env.polls
    match pw.1 with
    | PyOutcome.diverge => ⟨PyOutcome.diverge, 1, 1 + pw.2, 0⟩
    | PyOutcome.exn _ => ⟨PyOutcome.ok (none, tracked), 1, 1 + pw.2, 0⟩
    | PyOutcome.ok uploaded =>
      if isFailedFileState (fileState uploaded) then
        ⟨PyOutcome.ok (none, tracked), 1, 1 + pw.2, 0⟩
      else
        match store_name with
        | none =>
          finishTracking hashFn fs none now tracked file_path uploaded (1 + pw.2) 0
        | some sname =>
          match env.importResult with
          | Except.error _ =>
            finishTracking hashFn fs (some sname) now tracked file_path uploaded
              (1 + pw.2 + 1) 0
          | Except.ok op0 =>
            let r := importLoop env op0 0 150
            if r.earlyFail then
              ⟨PyOutcome.ok (none, tracked), 1, 1 + pw.2 + 1 + r.getCalls, r.slept⟩
            else if importFinalFails r.op then
              ⟨PyOutcome.ok (none, tracked), 1, 1 + pw.2 + 1 + r.getCalls, r.slept⟩
            else
              finishTracking hashFn fs (some sname) now tracked file_path uploaded
                (1 + pw.2 + 1 + r.getCalls) r.slept

/-- `FileManager.upload_file`.  Validation failure returns `None`;
the tracked-file check runs OUTSIDE the `try` block, so an exception
raised while hashing there propagates to the caller; a tracked file short
circuits to the stored name/uri (a missing entry at that point would be a
`KeyError`, shown unreachable); otherwise the `try` body runs. -/
def upload_file (hashFn : Content → String) (fs : Fs) (env : RemoteEnv)
    (store_name : Option String) (now : String) (tracked : TrackStore)
    (file_path : String) : UploadRun :=
  if (validate_pdf_file fs file_path).1 = false then
    ⟨PyOutcome.ok (none, tracked), 0, 0, 0⟩
  else
    match is_file_tracked hashFn fs tracked file_path with
    | Except.error e => ⟨PyOutcome.exn e, 0, 0, 0⟩
    | Except.ok true =>
      match storeLookup tracked (fs.resolve file_path) with
      | some tf => ⟨PyOutcome.ok (some ⟨tf.name, tf.uri⟩, tracked), 0, 0, 0⟩
      | none => ⟨PyOutcome.exn "KeyError", 0, 0, 0⟩
    | Except.ok false =>
      uploadTryBody hashFn fs env store_name now tracked file_path

/-- `Path(dir).glob("*.pdf")`: the immediate entries of the directory
whose name ends in the (case-sensitive) four characters `.pdf`, as
`dir/name` paths, in directory order; no recursion into subdirectories. -/
def globPdf (fs : Fs) (dir_path : String) : List String :=
  match fs.lookup dir_path with
  | some (FsNode.dir entries _) =>
    (entries.filter (fun n => strEndsWith n ".pdf")).map
      (fun n => dir_path ++ "/" ++ n)
  | _ => []

/-- The `for pdf_file in pdf_files` loop of `upload_directory`:
sequential `upload_file` calls threading the tracking store, collecting
the non-`None` results in order.  An exception or divergence in one call
aborts the whole batch (the loop has no `try`). -/
def uploadDirLoop (hashFn : Content → String) (fs : Fs)
    (renv : String → RemoteEnv) (store_name : Option String) (now : String) :
    TrackStore → List String → PyOutcome (List UploadSuccess × TrackStore)
  | tracked, [] => PyOutcome.ok ([], tracked)
  | tracked, p :: rest =>
    let r := upload_file hashFn fs (renv p) store_name now tracked p
    match r.outcome with
    | PyOutcome.exn e => PyOutcome.exn e
    | PyOutcome.diverge => PyOutcome.diverge
    | PyOutcome.ok (res, tracked2) =>
      match uploadDirLoop hashFn fs renv store_name now tracked2 rest with
      | PyOutcome.exn e => PyOutcome.exn e
      | PyOutcome.diverge => PyOutcome.diverge
      | PyOutcome.ok (lst, tracked3) =>
        PyOutcome.ok
          ((match res with | some s => s :: lst | none => lst), tracked3)

/-- `FileManager.upload_directory`: validate the directory (empty list on
failure), enumerate immediate `*.pdf` entries (empty list when there are
none), upload each sequentially and return the successful results. -/
def upload_directory (hashFn : Content → String) (fs : Fs)
    (renv : String → RemoteEnv) (store_name : Option String) (now : String)
    (tracked : TrackStore) (directory_path : String) :
    PyOutcome (List UploadSuccess × TrackStore) :=
  if (validate_directory fs directory_path).1 = false then
    PyOutcome.ok ([], tracked)
  else
    let pdf_files := globPdf fs directory_path
    if pdf_files.isEmpty then PyOutcome.ok ([], tracked)
    else uploadDirLoop hashFn fs renv store_name now tracked pdf_files

end SysmlAgent

namespace SysmlAgent

/-- A remote file handle already in a terminal, non-failed state. -/
def rfDemo : RemoteFile :=
  ⟨"files/x", some "uri://x", none, some "ACTIVE", none⟩

/-- An operation handle that is immediately done. -/
def opDemo : RemoteOp := ⟨some true, none, none⟩

/-- A remote environment in which every call succeeds at once. -/
def envA : RemoteEnv where
  uploadResult := Except.ok rfDemo
  polls := []
  importResult := Except.ok opDemo
  opsAvailable := true
  opRefresh := fun _ => Except.ok opDemo

end SysmlAgent

namespace SysmlAgent

/-! ### Lemmas about the retry loop -/

theorem retryGo_calls_le (ask : Nat → Except String String) :
    ∀ r a, (retryGo ask a r).calls ≤ r := by
  intro r
  induction r with
  | zero => intro a; simp [retryGo]
  | succ n ih =>
    intro a
    simp only [retryGo]
    cases h : ask a with
    | ok v => simp
    | error e =>
      by_cases hn : n = 0
      · subst hn; simp
      · simp only [if_neg hn]
        exact Nat.succ_le_succ (ih (a + 1))

theorem retryGo_first_success (ask : Nat → Except String String) :
    ∀ i a r, i < r → (∀ j, j < i → ∃ e, ask (a + j) = Except.error e) →
      ∀ v, ask (a + i) = Except.ok v →
        (retryGo ask a r).result = Except.ok v ∧
        (retryGo ask a r).calls = i + 1 := by
  intro i
  induction i with
  | zero =>
    intro a r hr hfail v hok
    obtain ⟨r', rfl⟩ : ∃ r', r = r' + 1 := ⟨r - 1, by omega⟩
    rw [Nat.add_zero] at hok
    simp [retryGo, hok]
  | succ i ih =>
    intro a r hr hfail v hok
    obtain ⟨r', rfl⟩ : ∃ r', r = r' + 1 := ⟨r - 1, by omega⟩
    obtain ⟨e0, he0⟩ := hfail 0 (Nat.succ_pos i)
    rw [Nat.add_zero] at he0
    have hr' : ¬ r' = 0 := by omega
    simp only [retryGo, he0, if_neg hr']
    have hrec := ih (a + 1) r' (by omega)
      (fun j hj => by
        obtain ⟨e, he⟩ := hfail (j + 1) (by omega)
        exact ⟨e, by rw [show a + 1 + j = a + (j + 1) by omega]; exact he⟩)
      v (by rw [show a + 1 + i = a + (i + 1) by omega]; exact hok)
    exact ⟨hrec.1, by rw [hrec.2]⟩

theorem retryGo_all_fail (ask : Nat → Except String String) :
    ∀ r a, 1 ≤ r → (∀ j, j < r → ∃ e, ask (a + j) = Except.error e) →
      (retryGo ask a r).calls = r ∧ (retryGo ask a r).sleeps = r - 1 ∧
      ∀ e, ask (a + (r - 1)) = Except.error e →
        (retryGo ask a r).result = Except.error (some e) := by
  intro r
  induction r with
  | zero => intro a h; omega
  | succ n ih =>
    intro a _ hfail
    obtain ⟨e0, he0⟩ := hfail 0 (Nat.succ_pos n)
    rw [Nat.add_zero] at he0
    by_cases hn : n = 0
    · subst hn
      simp only [retryGo, he0, if_pos rfl]
      refine ⟨rfl, rfl, ?_⟩
      intro e he
      rw [Nat.add_zero] at he
      rw [he0] at he
      cases he
      rfl
    · have hrec := ih (a + 1) (by omega)
        (fun j hj => by
          obtain ⟨e, he⟩ := hfail (j + 1) (by omega)
          exact ⟨e, by rw [show a + 1 + j = a + (j + 1) by omega]; exact he⟩)
      simp only [retryGo, he0, if_neg hn]
      refine ⟨by rw [hrec.1], by rw [hrec.2.1]; omega, ?_⟩
      intro e he
      exact hrec.2.2 e (by rw [show a + 1 + (n - 1) = a + (n + 1 - 1) by omega]; exact he)

/-- C3: for every question and every `maxRetries ≥ 1`, `askWithRetry`
invokes the underlying `askQuestion` at most `maxRetries` times and
returns the first successful result; if every attempt fails it invokes
`askQuestion` exactly `maxRetries` times, sleeps the fixed `retryDelay`
between consecutive attempts (`maxRetries - 1` sleeps), and raises the
wrapping `RuntimeError` whose `from` cause is the exception of the last
failed attempt. -/
theorem ask_with_retry_spec (ask : Nat → Except String String) (m : Int)
    (hm : 1 ≤ m) :
    (ask_with_retry ask m).calls ≤ m.toNat
    ∧ (∀ i v, i < m.toNat → (∀ j, j < i → ∃ e, ask j = Except.error e) →
        ask i = Except.ok v →
        (ask_with_retry ask m).result = Except.ok v ∧
        (ask_with_retry ask m).calls = i + 1)
    ∧ ((∀ j, j < m.toNat → ∃ e, ask j = Except.error e) →
        (ask_with_retry ask m).calls = m.toNat ∧
        (ask_with_retry ask m).sleeps = m.toNat - 1 ∧
        ∀ e, ask (m.toNat - 1) = Except.error e →
          (ask_with_retry ask m).result = Except.error (some e)) := by
  unfold ask_with_retry
  refine ⟨retryGo_calls_le ask m.toNat 0, ?_, ?_⟩
  · intro i v hi hfail hok
    exact retryGo_first_success ask i 0 m.toNat hi
      (fun j hj => by simpa using hfail j hj) v (by simpa using hok)
  · intro hfail
    have h1 : 1 ≤ m.toNat := by omega
    have h := retryGo_all_fail ask m.toNat 0 h1
      (fun j hj => by simpa using hfail j hj)
    exact ⟨h.1, h.2.1, fun e he => h.2.2 e (by simpa using he)⟩

/-- An always-failing underlying call for the retry witnesses. -/
def askFailDemo (i : Nat) : Except String String :=
  Except.error ("boom" ++ toString i)

theorem ask_with_retry_spec_witness :
    (ask_with_retry askFailDemo 3).calls = 3 ∧
    (ask_with_retry askFailDemo 3).sleeps = 2 ∧
    (ask_with_retry askFailDemo 3).result = Except.error (some "boom2") := by
  have h := (ask_with_retry_spec askFailDemo 3 (by decide)).2.2
    (fun j _ => ⟨"boom" ++ toString j, rfl⟩)
  refine ⟨by simpa using h.1, by simpa using h.2.1, ?_⟩
  have := h.2.2 "boom2" (by decide)
  simpa using this

/-- C9: calling `askWithRetry` with `maxRetries ≤ 0` makes the retry loop
body run zero times, so the underlying `askQuestion` is never invoked and
the wrapping `RuntimeError` is raised with no underlying cause
(`from None`). -/
theorem ask_with_retry_nonpos (ask : Nat → Except String String) (m : Int)
    (hm : m ≤ 0) :
    (ask_with_retry ask m).calls = 0 ∧
    (ask_with_retry ask m).result = Except.error none := by
  unfold ask_with_retry
  rw [Int.toNat_of_nonpos hm]
  exact ⟨rfl, rfl⟩

theorem ask_with_retry_nonpos_witness :
    (ask_with_retry askFailDemo (-2)).calls = 0 ∧
    (ask_with_retry askFailDemo (-2)).result = Except.error none :=
  ask_with_retry_nonpos askFailDemo (-2) (by decide)

/-- C6 counterexample: the claim says `load` never raises on malformed
content, but the `except` clause catches only
`(json.JSONDecodeError, IOError)`: a persisted tracking file whose bytes
are invalid in the text encoding makes `json.load` raise
`UnicodeDecodeError` — a `ValueError` that is neither of the caught
classes — and `_load_tracking` propagates it instead of returning the
empty map. -/
theorem load_tracking_raises_counterexample :
    load_tracking (some (ParseOutcome.uncaught
        "UnicodeDecodeError: invalid start byte"))
      = Except.error "UnicodeDecodeError: invalid start byte" := rfl

/-- C6 (amended): `load` returns the empty map on a missing persisted
file; a malformed or unreadable file whose failure is a
`json.JSONDecodeError` or an `IOError` is caught, logged and yields the
empty map; a well-formed file yields its parsed map; but malformed
content whose decoding raises any other exception (such as
`UnicodeDecodeError` on invalid-encoding bytes) propagates to the
caller. -/
theorem load_tracking_spec :
    load_tracking none = Except.ok []
    ∧ (∀ e, load_tracking (some (ParseOutcome.caught e)) = Except.ok [])
    ∧ (∀ m, load_tracking (some (ParseOutcome.ok m)) = Except.ok m)
    ∧ (∀ e, load_tracking (some (ParseOutcome.uncaught e))
        = Except.error e) :=
  ⟨rfl, fun _ => rfl, fun _ => rfl, fun _ => rfl⟩

end SysmlAgent

namespace SysmlAgent

/-! ### Lemmas about the validator -/

theorem validate_ok_iff (fs : Fs) (p : String) :
    validate_pdf_file fs p = (true, none) ↔
      ∃ c r, fs.lookup p = some (FsNode.file c r) ∧
        strLower (pathSuffix p) = ".pdf" ∧ c ≠ [] := by
  unfold validate_pdf_file
  cases h : fs.lookup p with
  | none => simp
  | some node =>
    cases node with
    | dir es r => simp
    | file c r =>
      by_cases hs : strLower (pathSuffix p) = ".pdf"
      · by_cases hc : c = []
        · subst hc; simp [hs]
        · simp [hs, hc, List.length_eq_zero]
      · simp [hs]

theorem validate_missing (fs : Fs) (p : String) (h : fs.lookup p = none) :
    validate_pdf_file fs p = (false, some ("File does not exist: " ++ p)) := by
  unfold validate_pdf_file
  rw [h]

theorem validate_not_a_file (fs : Fs) (p : String) (es : List String) (r : Bool)
    (h : fs.lookup p = some (FsNode.dir es r)) :
    validate_pdf_file fs p = (false, some ("Path is not a file: " ++ p)) := by
  unfold validate_pdf_file
  rw [h]

theorem validate_wrong_type (fs : Fs) (p : String) (c : Content) (r : Bool)
    (h : fs.lookup p = some (FsNode.file c r))
    (hs : strLower (pathSuffix p) ≠ ".pdf") :
    validate_pdf_file fs p = (false, some ("File is not a PDF: " ++ p)) := by
  unfold validate_pdf_file
  rw [h]
  simp [hs]

theorem validate_empty (fs : Fs) (p : String) (r : Bool)
    (h : fs.lookup p = some (FsNode.file [] r))
    (hs : strLower (pathSuffix p) = ".pdf") :
    validate_pdf_file fs p = (false, some ("File is empty: " ++ p)) := by
  unfold validate_pdf_file
  rw [h]
  simp [hs]

/-- C4: `validatePdfFile` succeeds iff the path names an existing regular
file with a case-insensitively `.pdf` extension and non-zero size, and
otherwise fails with the message of the first violated condition, the
checks running in the order: not found, not a file, wrong extension,
empty. -/
theorem validate_pdf_file_spec (fs : Fs) (p : String) :
    (validate_pdf_file fs p = (true, none) ↔
      ∃ c r, fs.lookup p = some (FsNode.file c r) ∧
        strLower (pathSuffix p) = ".pdf" ∧ c ≠ [])
    ∧ (fs.lookup p = none →
        validate_pdf_file fs p = (false, some ("File does not exist: " ++ p)))
    ∧ (∀ es r, fs.lookup p = some (FsNode.dir es r) →
        validate_pdf_file fs p = (false, some ("Path is not a file: " ++ p)))
    ∧ (∀ c r, fs.lookup p = some (FsNode.file c r) →
        strLower (pathSuffix p) ≠ ".pdf" →
        validate_pdf_file fs p = (false, some ("File is not a PDF: " ++ p)))
    ∧ (∀ r, fs.lookup p = some (FsNode.file [] r) →
        strLower (pathSuffix p) = ".pdf" →
        validate_pdf_file fs p = (false, some ("File is empty: " ++ p))) :=
  ⟨validate_ok_iff fs p, validate_missing fs p,
    fun es r h => validate_not_a_file fs p es r h,
    fun c r h hs => validate_wrong_type fs p c r h hs,
    fun r h hs => validate_empty fs p r h hs⟩

theorem validate_pdf_file_spec_witness :
    validate_pdf_file fsA "docs/a.pdf" = (true, none)
    ∧ validate_pdf_file fsA "empty.pdf"
        = (false, some ("File is empty: " ++ "empty.pdf"))
    ∧ validate_pdf_file fsA "big.PDF" = (true, none)
    ∧ validate_pdf_file fsA "missing.pdf"
        = (false, some ("File does not exist: " ++ "missing.pdf"))
    ∧ validate_pdf_file fsA "docs/notes.txt"
        = (false, some ("File is not a PDF: " ++ "docs/notes.txt")) := by
  refine ⟨?_, ?_, ?_, ?_, ?_⟩
  · exact (validate_pdf_file_spec fsA "docs/a.pdf").1.mpr
      ⟨[1], true, by decide, by decide, by decide⟩
  · exact (validate_pdf_file_spec fsA "empty.pdf").2.2.2.2 true (by decide) (by decide)
  · exact (validate_pdf_file_spec fsA "big.PDF").1.mpr
      ⟨[7], true, by decide, by decide, by decide⟩
  · exact (validate_pdf_file_spec fsA "missing.pdf").2.1 (by decide)
  · exact (validate_pdf_file_spec fsA "docs/notes.txt").2.2.2.1 [4] true
      (by decide) (by decide)

/-- C10: `uploadDirectory` enumerates exactly the immediate entries whose
name ends in the case-sensitive four characters `.pdf`; an entry whose
extension matches `.pdf` only case-insensitively is not in the enumerated
list (hence never passed to `uploadFile` by `uploadDirectory`), even
though `validatePdfFile` accepts such a file uploaded individually. -/
theorem upload_directory_case_spec (fs : Fs) (dir : String)
    (entries : List String) (rd : Bool) (name : String)
    (hdir : fs.lookup dir = some (FsNode.dir entries rd))
    (hcase : strEndsWith name ".pdf" = false) :
    globPdf fs dir = (entries.filter (fun n => strEndsWith n ".pdf")).map
        (fun n => dir ++ "/" ++ n)
    ∧ name ∉ entries.filter (fun n => strEndsWith n ".pdf")
    ∧ (∀ q c r, fs.lookup q = some (FsNode.file c r) →
        strLower (pathSuffix q) = ".pdf" → c ≠ [] →
        validate_pdf_file fs q = (true, none)) := by
  refine ⟨by simp [globPdf, hdir], ?_, ?_⟩
  · intro hmem
    rw [List.mem_filter] at hmem
    rw [hmem.2] at hcase
    cases hcase
  · intro q c r hq hs hc
    exact (validate_ok_iff fs q).mpr ⟨c, r, hq, hs, hc⟩

theorem upload_directory_case_spec_witness :
    globPdf fsA "docs" = ["docs/a.pdf", "docs/b.pdf", "docs/c.pdf"]
    ∧ "x.PDF" ∉ ["a.pdf", "b.pdf", "c.pdf", "notes.txt"].filter
        (fun n => strEndsWith n ".pdf")
    ∧ validate_pdf_file fsA "big.PDF" = (true, none) := by
  have h := upload_directory_case_spec fsA "docs"
    ["a.pdf", "b.pdf", "c.pdf", "notes.txt"] true "x.PDF" (by decide) (by decide)
  refine ⟨?_, h.2.1, ?_⟩
  · rw [h.1]; decide
  · exact h.2.2 "big.PDF" [7] true (by decide) (by decide) (by decide)

end SysmlAgent

namespace SysmlAgent

/-! ### Lemmas about the upload body -/

theorem finishTracking_uploads (hashFn : Content → String) (fs : Fs)
    (store_name : Option String) (now : String) (tracked : TrackStore)
    (file_path : String) (uploaded : RemoteFile) (remote slept : Nat) :
    (finishTracking hashFn fs store_name now tracked file_path uploaded
      remote slept).uploads = 1 := by
  unfold finishTracking
  cases compute_file_hash hashFn fs file_path <;> rfl

theorem finishTracking_not_exn (hashFn : Content → String) (fs : Fs)
    (store_name : Option String) (now : String) (tracked : TrackStore)
    (file_path : String) (uploaded : RemoteFile) (remote slept : Nat)
    (e : String) :
    (finishTracking hashFn fs store_name now tracked file_path uploaded
      remote slept).outcome ≠ PyOutcome.exn e := by
  unfold finishTracking
  cases compute_file_hash hashFn fs file_path <;> simp

theorem uploadTryBody_uploads (hashFn : Content → String) (fs : Fs)
    (env : RemoteEnv) (store_name : Option String) (now : String)
    (tracked : TrackStore) (file_path : String) :
    (uploadTryBody hashFn fs env store_name now tracked file_path).uploads
      = 1 := by
  unfold uploadTryBody
  dsimp only
  repeat' split
  all_goals first
    | rfl
    | apply finishTracking_uploads

theorem uploadTryBody_not_exn (hashFn : Content → String) (fs : Fs)
    (env : RemoteEnv) (store_name : Option String) (now : String)
    (tracked : TrackStore) (file_path : String) (e : String) :
    (uploadTryBody hashFn fs env store_name now tracked file_path).outcome
      ≠ PyOutcome.exn e := by
  unfold uploadTryBody
  dsimp only
  repeat' split
  all_goals first
    | apply finishTracking_not_exn
    | simp

theorem is_file_tracked_error (hashFn : Content → String) (fs : Fs)
    (tracked : TrackStore) (p : String) (e : String)
    (h : is_file_tracked hashFn fs tracked p = Except.error e) :
    compute_file_hash hashFn fs p = Except.error e := by
  unfold is_file_tracked at h
  cases hc : compute_file_hash hashFn fs p with
  | error e2 =>
    rw [hc] at h
    simp at h
    rw [h]
  | ok v =>
    rw [hc] at h
    dsimp only at h
    cases hl : storeLookup tracked (fs.resolve p) <;> rw [hl] at h <;> simp at h

theorem is_file_tracked_true_lookup (hashFn : Content → String) (fs : Fs)
    (tracked : TrackStore) (p : String)
    (h : is_file_tracked hashFn fs tracked p = Except.ok true) :
    ∃ tf, storeLookup tracked (fs.resolve p) = some tf := by
  unfold is_file_tracked at h
  cases hc : compute_file_hash hashFn fs p with
  | error e2 => rw [hc] at h; simp at h
  | ok v =>
    rw [hc] at h
    dsimp only at h
    cases hl : storeLookup tracked (fs.resolve p) with
    | none => rw [hl] at h; simp at h
    | some tf => exact ⟨tf, rfl⟩

/-- C1: under a readable file, `isTracked` is true iff the store has an
entry for the resolved absolute path whose stored hash equals the fresh
content hash; consequently a changed on-disk content (stored hash differs
from the fresh hash) makes `isTracked` false and a subsequent
`uploadFile` performs the remote upload (`files.upload` is called once)
instead of the cached short circuit. -/
theorem is_file_tracked_spec (hashFn : Content → String) (fs : Fs)
    (tracked : TrackStore) (p : String) (c : Content)
    (hread : readFile fs p = Except.ok c) :
    (is_file_tracked hashFn fs tracked p = Except.ok true ↔
      ∃ tf, storeLookup tracked (fs.resolve p) = some tf ∧
        tf.hash = some (hashFn c))
    ∧ (∀ tf, storeLookup tracked (fs.resolve p) = some tf →
        tf.hash ≠ some (hashFn c) →
        is_file_tracked hashFn fs tracked p = Except.ok false ∧
        ∀ env store_name now,
          (validate_pdf_file fs p).1 = true →
          (upload_file hashFn fs env store_name now tracked p).uploads = 1) := by
  have hch : compute_file_hash hashFn fs p = Except.ok (hashFn c) := by
    unfold compute_file_hash
    rw [hread]
    rfl
  constructor
  · unfold is_file_tracked
    rw [hch]
    dsimp only
    cases hl : storeLookup tracked (fs.resolve p) with
    | none => simp [hl]
    | some tf => simp [hl]
  · intro tf hl hne
    have hfalse : is_file_tracked hashFn fs tracked p = Except.ok false := by
      unfold is_file_tracked
      rw [hch]
      dsimp only
      rw [hl]
      simp [hne]
    refine ⟨hfalse, ?_⟩
    intro env store_name now hv
    unfold upload_file
    rw [hv]
    simp only [Bool.true_eq_false, if_false, hfalse]
    exact uploadTryBody_uploads hashFn fs env store_name now tracked p

/-- An entry whose stored hash matches `hashDemo [1]`. -/
def entryA : TrackedFile :=
  ⟨"files/x", "uri://x", some "h2", "t", "docs/a.pdf", some "s"⟩

/-- An entry whose stored hash is stale for content `[1]`. -/
def entryStale : TrackedFile :=
  ⟨"files/x", "uri://x", some "h999", "t", "docs/a.pdf", some "s"⟩

theorem is_file_tracked_spec_witness :
    is_file_tracked hashDemo fsA [("/root/docs/a.pdf", entryA)] "docs/a.pdf"
      = Except.ok true
    ∧ is_file_tracked hashDemo fsA [("/root/docs/a.pdf", entryStale)] "docs/a.pdf"
      = Except.ok false
    ∧ (upload_file hashDemo fsA envA (some "s") "t"
        [("/root/docs/a.pdf", entryStale)] "docs/a.pdf").uploads = 1 := by
  have h1 := is_file_tracked_spec hashDemo fsA [("/root/docs/a.pdf", entryA)]
    "docs/a.pdf" [1] (by decide)
  have h2 := is_file_tracked_spec hashDemo fsA [("/root/docs/a.pdf", entryStale)]
    "docs/a.pdf" [1] (by decide)
  have h2m := h2.2 entryStale (by decide) (by decide)
  exact ⟨h1.1.mpr ⟨entryA, by decide, by decide⟩, h2m.1,
    h2m.2 envA (some "s") "t" (by decide)⟩

/-- C2 counterexample: a file that exists, is a regular non-empty `.pdf`
file (so validation passes) but is unreadable: the hash computation in
the tracked-file check runs OUTSIDE the `try` block
(`file_manager.py` line 148 versus the `try` at line 156), so the
`PermissionError` propagates to the caller instead of returning `None`. -/
theorem upload_file_exn_counterexample :
    validate_pdf_file fsA "locked.pdf" = (true, none)
    ∧ (upload_file hashDemo fsA envA none "t" [] "locked.pdf").outcome
      = PyOutcome.exn "PermissionError: locked.pdf" := by
  constructor <;> decide

/-- C2 (amended): `uploadFile` propagates no exception provided the hash
computation of the tracked-file check succeeds (the file stays readable);
under that proviso every failure path — validation failure, remote upload
error, remote processing failure, import failure, and even a hash error
in the final tracking step — returns `None` (or the unbounded processing
wait diverges), and never raises. -/
theorem upload_file_no_exn (hashFn : Content → String) (fs : Fs)
    (env : RemoteEnv) (store_name : Option String) (now : String)
    (tracked : TrackStore) (p : String)
    (hok : (compute_file_hash hashFn fs p).isOk = true) :
    ∀ e, (upload_file hashFn fs env store_name now tracked p).outcome
      ≠ PyOutcome.exn e := by
  intro e
  unfold upload_file
  split
  · simp
  · cases hift : is_file_tracked hashFn fs tracked p with
    | error e2 =>
      have := is_file_tracked_error hashFn fs tracked p e2 hift
      rw [this] at hok
      cases hok
    | ok b =>
      cases b with
      | true =>
        obtain ⟨tf, hl⟩ := is_file_tracked_true_lookup hashFn fs tracked p hift
        rw [hl]
        simp
      | false => exact uploadTryBody_not_exn hashFn fs env store_name now tracked p e

theorem upload_file_no_exn_witness :
    (upload_file hashDemo fsA envA (some "s") "t" [] "docs/a.pdf").outcome
      ≠ PyOutcome.exn "PermissionError: docs/a.pdf" :=
  upload_file_no_exn hashDemo fsA envA (some "s") "t" [] "docs/a.pdf"
    (by decide) "PermissionError: docs/a.pdf"

end SysmlAgent

namespace SysmlAgent

/-! ### Success characterisation of the upload body -/

theorem storeLookup_insert (st : TrackStore) (k : String) (v : TrackedFile) :
    storeLookup (storeInsert st k v) k = some v := by
  simp [storeLookup, storeInsert, List.lookup]

theorem finishTracking_ok_some (hashFn : Content → String) (fs : Fs)
    (store_name : Option String) (now : String) (tracked : TrackStore)
    (p : String) (uploaded : RemoteFile) (remote slept : Nat)
    (res : UploadSuccess) (st2 : TrackStore)
    (h : (finishTracking hashFn fs store_name now tracked p uploaded
        remote slept).outcome = PyOutcome.ok (some res, st2)) :
    ∃ c, readFile fs p = Except.ok c ∧
      res = ⟨uploaded.name,
        (uploaded.uri.orElse fun _ => uploaded.file_uri).getD uploaded.name⟩ ∧
      st2 = storeInsert tracked (fs.resolve p)
        ⟨res.name, res.uri, some (hashFn c), now, p, store_name⟩ := by
  unfold finishTracking at h
  cases hc : compute_file_hash hashFn fs p with
  | error e => rw [hc] at h; simp at h
  | ok hsh =>
    rw [hc] at h
    dsimp only at h
    unfold compute_file_hash at hc
    cases hr : readFile fs p with
    | error e => rw [hr] at hc; simp [Except.map] at hc
    | ok c =>
      rw [hr] at hc
      simp only [Except.map] at hc
      have hhash : hashFn c = hsh := by
        cases hc
        rfl
      subst hhash
      simp only [PyOutcome.ok.injEq, Prod.mk.injEq, Option.some.injEq] at h
      obtain ⟨h1, h2⟩ := h
      refine ⟨c, rfl, h1.symm, ?_⟩
      rw [← h2, ← h1]

theorem uploadTryBody_ok_some (hashFn : Content → String) (fs : Fs)
    (env : RemoteEnv) (store_name : Option String) (now : String)
    (tracked : TrackStore) (p : String) (res : UploadSuccess)
    (st2 : TrackStore)
    (h : (uploadTryBody hashFn fs env store_name now tracked p).outcome
        = PyOutcome.ok (some res, st2)) :
    ∃ c, readFile fs p = Except.ok c ∧
      st2 = storeInsert tracked (fs.resolve p)
        ⟨res.name, res.uri, some (hashFn c), now, p, store_name⟩ := by
  unfold uploadTryBody at h
  dsimp only at h
  repeat' split at h
  all_goals
    first
    | simp at h
    | (obtain ⟨c, hr, hres, hst⟩ :=
        finishTracking_ok_some _ _ _ _ _ _ _ _ _ _ _ h
       exact ⟨c, hr, hst⟩)

/-- C5: if a not-yet-tracked valid file is uploaded successfully, a
second `uploadFile` on the unchanged file makes no remote call at all
(whatever the remote would do), performs zero `files.upload` calls
against the single one of the first call, and returns exactly the
remoteName/remoteUri stored in the tracking entry the first call
created. -/
theorem upload_file_idempotent (hashFn : Content → String) (fs : Fs)
    (env env2 : RemoteEnv) (store_name : Option String) (now : String)
    (tracked : TrackStore) (p : String) (res : UploadSuccess)
    (tracked2 : TrackStore)
    (hnt : is_file_tracked hashFn fs tracked p = Except.ok false)
    (h1 : (upload_file hashFn fs env store_name now tracked p).outcome
        = PyOutcome.ok (some res, tracked2)) :
    (upload_file hashFn fs env2 store_name now tracked2 p).outcome
      = PyOutcome.ok (some res, tracked2)
    ∧ (upload_file hashFn fs env2 store_name now tracked2 p).remoteCalls = 0
    ∧ (upload_file hashFn fs env2 store_name now tracked2 p).uploads = 0
    ∧ (upload_file hashFn fs env store_name now tracked p).uploads = 1
    ∧ ∃ tf, storeLookup tracked2 (fs.resolve p) = some tf ∧
        tf.name = res.name ∧ tf.uri = res.uri := by
  have hv : (validate_pdf_file fs p).1 = true := by
    by_contra hvc
    have hvf : (validate_pdf_file fs p).1 = false := by
      cases hb : (validate_pdf_file fs p).1
      · rfl
      · exact absurd hb hvc
    unfold upload_file at h1
    rw [if_pos hvf] at h1
    simp at h1
  have hvnf : ¬ (validate_pdf_file fs p).1 = false := by simp [hv]
  have hbody : (uploadTryBody hashFn fs env store_name now tracked p).outcome
      = PyOutcome.ok (some res, tracked2) := by
    unfold upload_file at h1
    rw [if_neg hvnf, hnt] at h1
    exact h1
  obtain ⟨c, hread, hst⟩ :=
    uploadTryBody_ok_some hashFn fs env store_name now tracked p res tracked2 hbody
  have hch : compute_file_hash hashFn fs p = Except.ok (hashFn c) := by
    unfold compute_file_hash
    rw [hread]
    rfl
  have hlook : storeLookup tracked2 (fs.resolve p)
      = some ⟨res.name, res.uri, some (hashFn c), now, p, store_name⟩ := by
    rw [hst]
    exact storeLookup_insert _ _ _
  have htr : is_file_tracked hashFn fs tracked2 p = Except.ok true := by
    unfold is_file_tracked
    rw [hch]
    dsimp only
    rw [hlook]
    simp
  refine ⟨?_, ?_, ?_, ?_, ⟨_, hlook, rfl, rfl⟩⟩
  · unfold upload_file
    rw [if_neg hvnf, htr, hlook]
  · unfold upload_file
    rw [if_neg hvnf, htr, hlook]
  · unfold upload_file
    rw [if_neg hvnf, htr, hlook]
  · unfold upload_file
    rw [if_neg hvnf, hnt]
    exact uploadTryBody_uploads hashFn fs env store_name now tracked p

theorem upload_file_idempotent_witness :
    (upload_file hashDemo fsA envA (some "s") "t"
        [("/root/docs/a.pdf", entryA)] "docs/a.pdf").outcome
      = PyOutcome.ok (some ⟨"files/x", "uri://x"⟩, [("/root/docs/a.pdf", entryA)])
    ∧ (upload_file hashDemo fsA envA (some "s") "t"
        [("/root/docs/a.pdf", entryA)] "docs/a.pdf").remoteCalls = 0
    ∧ (upload_file hashDemo fsA envA (some "s") "t" [] "docs/a.pdf").uploads = 1 := by
  have h := upload_file_idempotent hashDemo fsA envA envA (some "s") "t" []
    "docs/a.pdf" ⟨"files/x", "uri://x"⟩ [("/root/docs/a.pdf", entryA)]
    (by decide) (by decide)
  exact ⟨h.1, h.2.1, h.2.2.2.1⟩

end SysmlAgent

namespace SysmlAgent

/-! ### Lemmas about the import-wait loop -/

theorem importLoop_slept_le (env : RemoteEnv) :
    ∀ fuel op iter, (importLoop env op iter fuel).slept ≤ 2 * fuel := by
  intro fuel
  induction fuel with
  | zero => intro op iter; simp [importLoop]
  | succ n ih =>
    intro op iter
    unfold importLoop
    split
    · simp
    · simp
    · split
      · split
        · rename_i op2 heq
          dsimp only
          have := ih op2 (iter + 1)
          omega
        · dsimp only
          omega
      · dsimp only
        omega

theorem finishTracking_importSlept (hashFn : Content → String) (fs : Fs)
    (store_name : Option String) (now : String) (tracked : TrackStore)
    (file_path : String) (uploaded : RemoteFile) (remote slept : Nat) :
    (finishTracking hashFn fs store_name now tracked file_path uploaded
      remote slept).importSlept = slept := by
  unfold finishTracking
  cases compute_file_hash hashFn fs file_path <;> rfl

theorem uploadTryBody_importSlept_le (hashFn : Content → String) (fs : Fs)
    (env : RemoteEnv) (store_name : Option String) (now : String)
    (tracked : TrackStore) (file_path : String) :
    (uploadTryBody hashFn fs env store_name now tracked file_path).importSlept
      ≤ 300 := by
  unfold uploadTryBody
  dsimp only
  repeat' split
  all_goals simp only [finishTracking_importSlept]
  all_goals
    first
    | exact Nat.zero_le _
    | exact le_trans (importLoop_slept_le env 150 _ 0) (by omega)

theorem importLoop_fail (env : RemoteEnv) (op : RemoteOp) (iter fuel : Nat)
    (h : importCheck op = ImportCheck.fail) (hf : fuel ≠ 0) :
    importLoop env op iter fuel = ⟨op, true, 0, 0⟩ := by
  obtain ⟨m, rfl⟩ : ∃ m, fuel = m + 1 := ⟨fuel - 1, by omega⟩
  unfold importLoop
  rw [h]

theorem importLoop_all_cont (env : RemoteEnv) (g : Nat → RemoteOp)
    (hops : env.opsAvailable = true)
    (href : ∀ k, env.opRefresh k = Except.ok (g k))
    (hcont : ∀ k, importCheck (g k) = ImportCheck.cont) :
    ∀ fuel op iter, importCheck op = ImportCheck.cont → fuel ≠ 0 →
      importLoop env op iter fuel
        = ⟨g (iter + fuel - 1), false, 2 * fuel, fuel⟩ := by
  intro fuel
  induction fuel with
  | zero => intro op iter _ h0; exact absurd rfl h0
  | succ n ih =>
    intro op iter hop _
    unfold importLoop
    rw [hop]
    try dsimp only
    rw [hops]
    try dsimp only
    rw [href iter]
    try dsimp only
    match n, ih with
    | 0, _ =>
      rw [show importLoop env (g iter) (iter + 1) 0 = ⟨g iter, false, 0, 0⟩ from rfl]
      simp
    | m + 1, ih =>
      rw [ih (g iter) (iter + 1) (hcont iter) (by omega)]
      try dsimp only
      have hidx : iter + 1 + (m + 1) - 1 = iter + (m + 1 + 1) - 1 := by omega
      have harith : 2 * (m + 1) + 2 = 2 * (m + 1 + 1) := by omega
      rw [hidx, harith]
      simp

/-- C7: the import-wait loop of `uploadFile` sleeps at most 300 seconds
in total (fixed 2-second increments); when the operation reports an
explicit failure status, `uploadFile` returns `None`; and when the
300-second ceiling is exhausted without the operation ever confirming
completion, `uploadFile` nevertheless proceeds to record the tracking
entry and returns the remote name and URI. -/
theorem upload_import_wait_spec :
    (∀ hashFn fs env store_name now tracked p,
      (upload_file hashFn fs env store_name now tracked p).importSlept ≤ 300)
    ∧ (∀ hashFn fs env sname now tracked p rf0 rf1 op0,
        (validate_pdf_file fs p).1 = true →
        is_file_tracked hashFn fs tracked p = Except.ok false →
        env.uploadResult = Except.ok rf0 →
        (processWait rf0 env.polls).1 = PyOutcome.ok rf1 →
        isFailedFileState (fileState rf1) = false →
        env.importResult = Except.ok op0 →
        importCheck op0 = ImportCheck.fail →
        (upload_file hashFn fs env (some sname) now tracked p).outcome
          = PyOutcome.ok (none, tracked))
    ∧ (∀ hashFn fs env sname now tracked p rf0 rf1 op0
          (g : Nat → RemoteOp) (c : Content),
        (validate_pdf_file fs p).1 = true →
        is_file_tracked hashFn fs tracked p = Except.ok false →
        env.uploadResult = Except.ok rf0 →
        (processWait rf0 env.polls).1 = PyOutcome.ok rf1 →
        isFailedFileState (fileState rf1) = false →
        env.importResult = Except.ok op0 →
        importCheck op0 = ImportCheck.cont →
        env.opsAvailable = true →
        (∀ k, env.opRefresh k = Except.ok (g k)) →
        (∀ k, importCheck (g k) = ImportCheck.cont) →
        importFinalFails (g 149) = false →
        readFile fs p = Except.ok c →
        (upload_file hashFn fs env (some sname) now tracked p).outcome
          = PyOutcome.ok
              (some ⟨rf1.name,
                (rf1.uri.orElse fun _ => rf1.file_uri).getD rf1.name⟩,
               storeInsert tracked (fs.resolve p)
                ⟨rf1.name,
                  (rf1.uri.orElse fun _ => rf1.file_uri).getD rf1.name,
                  some (hashFn c), now, p, some sname⟩)
        ∧ (upload_file hashFn fs env (some sname) now tracked p).importSlept
            = 300) := by
  refine ⟨?_, ?_, ?_⟩
  · intro hashFn fs env store_name now tracked p
    unfold upload_file
    split
    · exact Nat.zero_le _
    · split
      · exact Nat.zero_le _
      · split
        · exact Nat.zero_le _
        · exact Nat.zero_le _
      · exact uploadTryBody_importSlept_le hashFn fs env store_name now tracked p
  · intro hashFn fs env sname now tracked p rf0 rf1 op0 hv hnt hup hpw hnf himp hchk
    have hvnf : ¬ (validate_pdf_file fs p).1 = false := by simp [hv]
    unfold upload_file
    rw [if_neg hvnf, hnt]
    unfold uploadTryBody
    rw [hup]
    try dsimp only
    rw [hpw]
    try dsimp only
    rw [hnf]
    try dsimp only
    rw [himp]
    try dsimp only
    rw [importLoop_fail env op0 0 150 hchk (by omega)]
    simp
  · intro hashFn fs env sname now tracked p rf0 rf1 op0 g c hv hnt hup hpw hnf
      himp hchk hops href hcont hfin hread
    have hvnf : ¬ (validate_pdf_file fs p).1 = false := by simp [hv]
    have hch : compute_file_hash hashFn fs p = Except.ok (hashFn c) := by
      unfold compute_file_hash
      rw [hread]
      rfl
    have hloop := importLoop_all_cont env g hops href hcont 150 op0 0 hchk (by omega)
    constructor
    · unfold upload_file
      rw [if_neg hvnf, hnt]
      unfold uploadTryBody
      rw [hup]
      try dsimp only
      rw [hpw]
      try dsimp only
      rw [hnf]
      try dsimp only
      rw [himp]
      try dsimp only
      rw [hloop]
      try dsimp only
      rw [show (0 + 150 - 1 : Nat) = 149 from rfl, hfin]
      try dsimp only
      unfold finishTracking
      rw [hch]
      simp
    · unfold upload_file
      rw [if_neg hvnf, hnt]
      unfold uploadTryBody
      rw [hup]
      try dsimp only
      rw [hpw]
      try dsimp only
      rw [hnf]
      try dsimp only
      rw [himp]
      try dsimp only
      rw [hloop]
      try dsimp only
      rw [show (0 + 150 - 1 : Nat) = 149 from rfl, hfin]
      simp [finishTracking_importSlept]

/-- An operation handle that never completes (`done` present, false). -/
def opBusy : RemoteOp := ⟨some false, none, none⟩

/-- A remote environment whose import operation never completes. -/
def envSlow : RemoteEnv where
  uploadResult := Except.ok rfDemo
  polls := []
  importResult := Except.ok opBusy
  opsAvailable := true
  opRefresh := fun _ => Except.ok opBusy

/-- An operation handle with an explicit failure status. -/
def opFailed : RemoteOp := ⟨none, some "FAILED", none⟩

/-- A remote environment whose import operation reports failure. -/
def envFail : RemoteEnv :=
  { envSlow with importResult := Except.ok opFailed }

theorem upload_import_wait_spec_witness :
    (upload_file hashDemo fsA envFail (some "s") "t" [] "docs/a.pdf").outcome
      = PyOutcome.ok (none, [])
    ∧ (upload_file hashDemo fsA envSlow (some "s") "t" [] "docs/a.pdf").importSlept
        = 300
    ∧ (upload_file hashDemo fsA envSlow (some "s") "t" [] "docs/a.pdf").outcome
      = PyOutcome.ok (some ⟨"files/x", "uri://x"⟩,
          [("/root/docs/a.pdf",
            ⟨"files/x", "uri://x", some "h2", "t", "docs/a.pdf", some "s"⟩)]) := by
  have hfail := upload_import_wait_spec.2.1 hashDemo fsA envFail "s" "t" []
    "docs/a.pdf" rfDemo rfDemo opFailed (by decide) (by decide) rfl (by decide)
    (by decide) rfl (by decide)
  have hslow := upload_import_wait_spec.2.2 hashDemo fsA envSlow "s" "t" []
    "docs/a.pdf" rfDemo rfDemo opBusy (fun _ => opBusy) [1] (by decide)
    (by decide) rfl (by decide) (by decide) rfl (by decide) rfl
    (fun _ => rfl) (fun _ => rfl) (by decide) (by decide)
  exact ⟨hfail, hslow.2, hslow.1⟩

end SysmlAgent

namespace SysmlAgent

/-- The tracking store after the three successful uploads of the C8
scenario (later uploads are consed in front of earlier ones). -/
def storeDocs : TrackStore :=
  [("/root/docs/c.pdf", ⟨"files/x", "uri://x", some "h4", "t", "docs/c.pdf", some "s"⟩),
   ("/root/docs/b.pdf", ⟨"files/x", "uri://x", some "h3", "t", "docs/b.pdf", some "s"⟩),
   ("/root/docs/a.pdf", ⟨"files/x", "uri://x", some "h2", "t", "docs/a.pdf", some "s"⟩)]

/-- C8: `uploadDirectory` returns the empty list when directory
validation fails; it enumerates exactly the immediate `*.pdf` entries of
the directory (no recursion); it calls `uploadFile` on each entry
sequentially, a `None` from one file leaving the rest of the batch
unaffected and a success contributing its result in order; and on the
concrete directory holding three valid PDFs and one non-PDF file it
uploads exactly the three valid ones (success count 3 of the 3
enumerated, the non-PDF entry never enumerated). -/
theorem upload_directory_spec :
    (∀ hashFn fs renv store_name now tracked d,
      (validate_directory fs d).1 = false →
      upload_directory hashFn fs renv store_name now tracked d
        = PyOutcome.ok ([], tracked))
    ∧ (∀ fs d entries rd, fs.lookup d = some (FsNode.dir entries rd) →
        globPdf fs d = (entries.filter (fun n => strEndsWith n ".pdf")).map
          (fun n => d ++ "/" ++ n))
    ∧ (∀ hashFn fs renv store_name now tracked p rest st2,
        (upload_file hashFn fs (renv p) store_name now tracked p).outcome
          = PyOutcome.ok (none, st2) →
        uploadDirLoop hashFn fs renv store_name now tracked (p :: rest)
          = uploadDirLoop hashFn fs renv store_name now st2 rest)
    ∧ (∀ hashFn fs renv store_name now tracked p rest st2 s lst st3,
        (upload_file hashFn fs (renv p) store_name now tracked p).outcome
          = PyOutcome.ok (some s, st2) →
        uploadDirLoop hashFn fs renv store_name now st2 rest
          = PyOutcome.ok (lst, st3) →
        uploadDirLoop hashFn fs renv store_name now tracked (p :: rest)
          = PyOutcome.ok (s :: lst, st3))
    ∧ (upload_directory hashDemo fsA (fun _ => envA) (some "s") "t" [] "docs"
        = PyOutcome.ok ([⟨"files/x", "uri://x"⟩, ⟨"files/x", "uri://x"⟩,
            ⟨"files/x", "uri://x"⟩], storeDocs)
      ∧ (globPdf fsA "docs").length = 3
      ∧ (fsA.lookup "docs"
          = some (FsNode.dir ["a.pdf", "b.pdf", "c.pdf", "notes.txt"] true))) := by
  refine ⟨?_, ?_, ?_, ?_, by decide, by decide, by decide⟩
  · intro hashFn fs renv store_name now tracked d h
    unfold upload_directory
    rw [if_pos h]
  · intro fs d entries rd h
    simp [globPdf, h]
  · intro hashFn fs renv store_name now tracked p rest st2 h
    conv_lhs => unfold uploadDirLoop
    try dsimp only
    rw [h]
    try dsimp only
    cases hr : uploadDirLoop hashFn fs renv store_name now st2 rest with
    | exn e => rfl
    | diverge => rfl
    | ok pr =>
      obtain ⟨lst, st3⟩ := pr
      rfl
  · intro hashFn fs renv store_name now tracked p rest st2 s lst st3 h hrest
    conv_lhs => unfold uploadDirLoop
    try dsimp only
    rw [h]
    try dsimp only
    rw [hrest]

theorem upload_directory_spec_witness :
    upload_directory hashDemo fsA (fun _ => envA) (some "s") "t" [] "docs/a.pdf"
      = PyOutcome.ok ([], [])
    ∧ globPdf fsA "docs" = (["a.pdf", "b.pdf", "c.pdf", "notes.txt"].filter
        (fun n => strEndsWith n ".pdf")).map (fun n => "docs" ++ "/" ++ n)
    ∧ uploadDirLoop hashDemo fsA (fun _ => envA) (some "s") "t" [] ["empty.pdf"]
      = uploadDirLoop hashDemo fsA (fun _ => envA) (some "s") "t" [] [] := by
  refine ⟨?_, ?_, ?_⟩
  · exact upload_directory_spec.1 hashDemo fsA (fun _ => envA) (some "s") "t" []
      "docs/a.pdf" (by decide)
  · exact upload_directory_spec.2.1 fsA "docs"
      ["a.pdf", "b.pdf", "c.pdf", "notes.txt"] true (by decide)
  · exact upload_directory_spec.2.2.1 hashDemo fsA (fun _ => envA) (some "s")
      "t" [] "empty.pdf" [] [] (by decide)

end SysmlAgent
